import Mathlib

/-!
Verification development for the JLRP clothing e-commerce backend.

The Python routers are shallowly embedded as pure Lean functions:
HTTP error responses become `Except Nat` values carrying the status code,
MongoDB collections become explicit lists threaded through the handlers,
Python floats on rupee amounts are modelled as exact rationals, and the
outcomes of external gateway calls (Razorpay order creation, signature
verification, refunds) are passed in as explicit parameters.
-/

/-- Python's `int()` applied to an exact rational value: truncation toward
zero (floor for nonnegative values, ceiling for negative ones). -/
def pyInt (q : ℚ) : ℤ := if 0 ≤ q then ⌊q⌋ else ⌈q⌉

/-- Python's `round()` on an exact rational value: round half to even. -/
def pyRound (q : ℚ) : ℤ :=
  let f := ⌊q⌋
  let r := q - (f : ℚ)
  if r < 1/2 then f
  else if r > 1/2 then f + 1
  else if f % 2 = 0 then f else f + 1

/-! Payment router (`app/routers/payment_router.py`, frontend variant with
the MongoDB order insert). -/

/-- One line item of an order (`OrderItem` in `app/models/order.py`).
The price is in rupees. -/
structure OrderItem where
  product_id : String
  name : String
  price : ℚ
  quantity : ℕ
deriving DecidableEq

/-- Body of `POST /payment/create-order` (`OrderCreate` in
`app/models/order.py`); the shipping address is kept abstract. -/
structure OrderCreate where
  email : String
  items : List OrderItem
  amount : ℚ
  shipping_address : String
deriving DecidableEq

/-- A document of the `orders` collection as written by the payment
router via `OrderDB`. `customer_email` is a key the payment flow never
writes; it is modelled as an `Option` field that the flow leaves `none`.
`status` also covers the admin-driven fulfillment axis (e.g. `delivered`). -/
structure OrderDoc where
  email : Option String
  items : List OrderItem
  amount : ℚ
  shipping_address : Option String
  razorpay_order_id : Option String
  razorpay_payment_id : Option String
  customer_email : Option String
  status : String
deriving DecidableEq

/-- A document of the `payments` collection (one per successful verify). -/
structure PaymentRecord where
  order_id : String
  payment_id : String
  signature : String
deriving DecidableEq

/-- The database state the payment router touches. -/
structure DBState where
  orders : List OrderDoc
  payments : List PaymentRecord
deriving DecidableEq

/-- Response data of `create_order` that the claims are about: the amount
(in paise) of the `order_data` sent to the Razorpay gateway, the gateway
order id, and the echoed rupee amount. -/
structure CreateOrderResp where
  gateway_amount_paise : ℤ
  order_id : String
  amount : ℚ
deriving DecidableEq

/-- Embeds `create_order` of `app/routers/payment_router.py`.
`rzOrderId` abstracts the id the Razorpay gateway assigns to the order it
creates (the gateway call itself is assumed to succeed, as is the MongoDB
insert). A non-positive amount yields HTTP 400 before any external call.
The gateway amount is `int(round(amount_rupees * 100))`. -/
def create_order (payload : OrderCreate) (rzOrderId : String) (st : DBState) :
    Except ℕ CreateOrderResp × DBState :=
  if payload.amount ≤ 0 then (Except.error 400, st)
  else
    let paise := pyRound (payload.amount * 100)
    let doc : OrderDoc :=
      { email := some payload.email,
        items := payload.items,
        amount := payload.amount,
        shipping_address := some payload.shipping_address,
        razorpay_order_id := some rzOrderId,
        razorpay_payment_id := none,
        customer_email := none,
        status := "PENDING_PAYMENT" }
    (Except.ok { gateway_amount_paise := paise, order_id := rzOrderId, amount := payload.amount },
      { st with orders := st.orders ++ [doc] })

/-- Mongo's `update_one`: apply `f` to the first element matching `p`. -/
def updateFirst (p : α → Bool) (f : α → α) : List α → List α
  | [] => []
  | x :: xs => if p x then f x :: xs else x :: updateFirst p f xs

/-- Body of `POST /payment/verify` (`VerifyPayload`). -/
structure VerifyPayload where
  razorpay_order_id : String
  razorpay_payment_id : String
  razorpay_signature : String
deriving DecidableEq

/-- Embeds `verify_payment` of `app/routers/payment_router.py`.
`sigValid` is the outcome of the gateway's HMAC signature check
(`razorpay_client.utility.verify_payment_signature`): `true` for a
matching signature, `false` for `SignatureVerificationError`. On a valid
signature the matched order is set to `PAID` with the payment id recorded
and one record is appended to `payments`; on an invalid signature the
matched order is set to `FAILED` and HTTP 400 is raised. -/
def verify_payment (sigValid : Bool) (payload : VerifyPayload) (st : DBState) :
    Except ℕ Unit × DBState :=
  if sigValid then
    (Except.ok (),
      { st with
          orders := updateFirst
            (fun o => o.razorpay_order_id == some payload.razorpay_order_id)
            (fun o =>
              { o with status := "PAID", razorpay_payment_id := some payload.razorpay_payment_id })
            st.orders,
          payments := st.payments ++
            [{ order_id := payload.razorpay_order_id,
               payment_id := payload.razorpay_payment_id,
               signature := payload.razorpay_signature }] })
  else
    (Except.error 400,
      { st with
          orders := updateFirst
            (fun o => o.razorpay_order_id == some payload.razorpay_order_id)
            (fun o => { o with status := "FAILED" })
            st.orders })

/-! Return requests router (`app/routers/return_requests.py`). -/

/-- Body of `POST /returns/request` (`ReturnCreate`). -/
structure ReturnCreate where
  order_id : String
  product_id : String
  reason : String
deriving DecidableEq

/-- A document of the `return_requests` collection (`ReturnDoc`). -/
structure ReturnRequestDoc where
  order_id : String
  product_id : String
  customer_email : Option String
  reason : String
  status : String
  refund_amount : Option ℤ
  razorpay_payment_id : Option String
  razorpay_refund_id : Option String
  admin_note : Option String
deriving DecidableEq

/-- Refund-amount scan of `create_return_request`: the loop takes the
first item whose `product_id` matches and computes
`int(float(item.price) * 100)` (paise); with no match the initial `0`
survives. -/
def computeRefundPaise (pid : String) (items : List OrderItem) : ℤ :=
  match items.find? (fun it => it.product_id == pid) with
  | some it => pyInt (it.price * 100)
  | none => 0

/-- Embeds `create_return_request` of `app/routers/return_requests.py`.
`userEmail` is `current_user.get("email")` and `order` is the result of
the `orders` lookup by id (`none` when not found). Checks, in source
order: order found (404), `order.get("customer_email") !=
current_user.get("email")` (403), `order.get("status") != "delivered"`
(400), computed refund amount of zero (400). On success the inserted
document has status `pending` and carries the refund amount computed at
creation time. -/
def create_return_request (payload : ReturnCreate) (userEmail : Option String)
    (order : Option OrderDoc) : Except ℕ ReturnRequestDoc :=
  match order with
  | none => Except.error 404
  | some o =>
    if o.customer_email ≠ userEmail then Except.error 403
    else if o.status ≠ "delivered" then Except.error 400
    else
      let refund := computeRefundPaise payload.product_id o.items
      if refund = 0 then Except.error 400
      else
        Except.ok
          { order_id := payload.order_id,
            product_id := payload.product_id,
            customer_email := userEmail,
            reason := payload.reason,
            status := "pending",
            refund_amount := some refund,
            razorpay_payment_id := o.razorpay_payment_id,
            razorpay_refund_id := none,
            admin_note := none }

/-- Body of `POST /returns/admin/action` (`AdminAction`). -/
structure AdminActionPayload where
  request_id : String
  action : String
  admin_note : Option String
deriving DecidableEq

/-- Python truthiness of an optional string field read with `.get`:
falsy when the key is absent or the value is the empty string. -/
def isFalsyStr : Option String → Bool
  | none => true
  | some s => s == ""

/-- Python truthiness of an optional integer field read with `.get`:
falsy when the key is absent or the value is `0`. -/
def isFalsyInt : Option ℤ → Bool
  | none => true
  | some n => n == 0

/-- Embeds `admin_action` of `app/routers/return_requests.py`, applied to
the already-looked-up request document `req`. `refund` is the outcome of
`call_razorpay_refund`: `Except.ok rid` for a successful gateway call
whose response dict has `rid = resp.get("id")` (so `none` when the
response carries no id), `Except.error` when the call raised. The second
component of the result is the stored document after the action (equal to
`req` whenever an HTTP error is raised, since every `update_one` comes
after all checks and the refund call). -/
def admin_action (act : AdminActionPayload) (req : ReturnRequestDoc)
    (refund : Except String (Option String)) : Except ℕ Unit × ReturnRequestDoc :=
  if act.action = "approve" then
    if req.status = "refunded" ∨ req.status = "approved" then (Except.error 400, req)
    else if isFalsyStr req.razorpay_payment_id || isFalsyInt req.refund_amount then
      (Except.error 400, req)
    else
      match refund with
      | Except.error _ => (Except.error 500, req)
      | Except.ok rid =>
        (Except.ok (),
          { req with status := "refunded", razorpay_refund_id := rid,
                     admin_note := act.admin_note })
  else if act.action = "reject" then
    if req.status = "pending" ∨ req.status = "pickup-scheduled" then
      (Except.ok (),
        { req with status := "rejected", admin_note := act.admin_note })
    else (Except.error 400, req)
  else (Except.error 400, req)

/-! Catalog service (`app/routers/products.py`): taxonomy validation. -/

/-- The fixed taxonomy `ALLOWED_CATEGORIES` (already lowercase). -/
def ALLOWED_CATEGORIES : List (String × List String) :=
  [("clothing",
    ["tshirt", "jeans", "kurti", "saree", "jacket", "shirt", "trouser", "shorts", "kurta"])]

/-- Dictionary lookup `ALLOWED_CATEGORIES.get(category)`. -/
def allowedSubcategories (cat : String) : Option (List String) :=
  (ALLOWED_CATEGORIES.find? (fun p => p.1 == cat)).map Prod.snd

/-- Python's `str.lower()` at the ASCII level (every taxonomy entry is
ASCII), character by character. -/
def pyLower (s : String) : String := String.mk (s.data.map Char.toLower)

/-- Python's `str.strip()`: drop leading and trailing whitespace. -/
def pyStrip (s : String) : String :=
  String.mk (((s.data.dropWhile Char.isWhitespace).reverse.dropWhile Char.isWhitespace).reverse)

/-- Normalization `v.strip().lower()` applied by every taxonomy validator. -/
def pyNorm (s : String) : String := pyLower (pyStrip s)

/-- Pydantic validator `validate_category` of `ProductBase`: the
normalized value must be a key of `ALLOWED_CATEGORIES`. -/
def validate_category (v : String) : Except String String :=
  let vn := pyNorm v
  if (allowedSubcategories vn).isSome then Except.ok vn
  else Except.error "category must be one of"

/-- Pydantic validator `validate_subcategory` of `ProductBase`: `category`
is `values.get("category")`, which is the already-validated category when
that field was supplied and passed validation, and `none` otherwise; when
it is `none` the membership check is skipped (`if category:`). `not
allowed` also fires on an empty allowed list. -/
def validate_subcategory (v : String) (category : Option String) : Except String String :=
  let vn := pyNorm v
  match category with
  | none => Except.ok vn
  | some c =>
    match allowedSubcategories c with
    | none => Except.error "subcategory must be one of"
    | some allowed =>
      if allowed = [] then Except.error "subcategory must be one of"
      else if vn ∈ allowed then Except.ok vn
      else Except.error "subcategory must be one of"

/-- Payload of `POST /products/` restricted to the validated fields
(`ProductBase`). -/
structure ProductPayload where
  title : String
  gender : String
  category : String
  subcategory : String
  price : ℚ
deriving DecidableEq

/-- A document of the `products` collection (taxonomy-relevant fields). -/
structure ProductDoc where
  title : String
  gender : String
  category : String
  subcategory : String
  price : ℚ
deriving DecidableEq

/-- Pydantic validation of a `ProductCreate` body: `title` has
`min_length=1`, `gender` is the literal `men`/`women`, `price` has
`ge=0`, and the two taxonomy validators run in field order, so the
subcategory validator sees the validated category. (Pydantic reports all
field errors together; the model only distinguishes success from
failure.) -/
def validateProductCreate (p : ProductPayload) : Except String (String × String) :=
  if p.title.length < 1 then Except.error "title"
  else if ¬(p.gender = "men" ∨ p.gender = "women") then Except.error "gender"
  else if p.price < 0 then Except.error "price"
  else
    match validate_category p.category with
    | Except.error e => Except.error e
    | Except.ok c =>
      match validate_subcategory p.subcategory (some c) with
      | Except.error e => Except.error e
      | Except.ok s => Except.ok (c, s)

/-- Embeds `create_product` (body validation, then insert; a pydantic
validation failure is a 422 rejection of the request). -/
def create_product (p : ProductPayload) : Except ℕ ProductDoc :=
  match validateProductCreate p with
  | Except.error _ => Except.error 422
  | Except.ok (c, s) =>
    Except.ok
      { title := p.title, gender := p.gender, category := c, subcategory := s, price := p.price }

/-- Pydantic validator `validate_category_update` of `ProductUpdate`:
`None` is passed through, otherwise as on create. -/
def validate_category_update (v : Option String) : Except String (Option String) :=
  match v with
  | none => Except.ok none
  | some s => (validate_category s).map some

/-- Pydantic validator `validate_subcategory_update` of `ProductUpdate`:
`None` is passed through; otherwise `values.get("category")` is consulted
and, exactly as on create, the membership check is skipped when the
update supplies no category. -/
def validate_subcategory_update (v : Option String) (category : Option String) :
    Except String (Option String) :=
  match v with
  | none => Except.ok none
  | some s => (validate_subcategory s category).map some

/-- Embeds `update_product` of `app/routers/products.py`, restricted to
the `category`/`subcategory` fields of the `ProductUpdate` payload
(the other optional fields play no part in taxonomy validation). After
pydantic validation (422 on failure), `update_doc` keeps only the
non-`None` fields; the router re-checks membership only when *both*
category and subcategory are present (400 on failure), rejects an empty
`update_doc` (400), and otherwise applies the `$set`. -/
def update_product (category subcategory : Option String) (existing : ProductDoc) :
    Except ℕ ProductDoc :=
  match validate_category_update category with
  | Except.error _ => Except.error 422
  | Except.ok c =>
    match validate_subcategory_update subcategory c with
    | Except.error _ => Except.error 422
    | Except.ok s =>
      match c, s with
      | some cat, some sub =>
        (match allowedSubcategories cat with
         | none => Except.error 400
         | some allowed =>
           if allowed = [] then Except.error 400
           else if sub ∉ allowed then Except.error 400
           else Except.ok { existing with category := cat, subcategory := sub })
      | some cat, none => Except.ok { existing with category := cat }
      | none, some sub => Except.ok { existing with subcategory := sub }
      | none, none => Except.error 400

/-- Membership of a (raw) category/subcategory pair in the fixed
taxonomy, after the same normalization the validators apply. -/
def inTaxonomy (c s : String) : Bool :=
  ((allowedSubcategories (pyNorm c)).getD []).contains (pyNorm s)

/-! Password hashing (`app/core/security.py`, `app/crud/users.py`).
Passwords are modelled as their UTF-8 byte strings; the passlib argon2
scheme is idealized as a collision-free hash: a hash value determines the
exact byte string it was produced from (salting is abstracted away), and
verification of an argon2 hash compares byte strings, while a hash from
no recognized scheme makes `pwd_context.verify` raise. -/

/-- A byte (0..255) of a UTF-8 encoded password. -/
abbrev Byte := ℕ

/-- Stored hash values: an argon2 hash of some password bytes (the
deterministic collision-free idealization of `pwd_context.hash`), or any
other stored string (legacy/garbage hashes, including the empty string). -/
inductive HashVal where
  | argon2 (pw : List Byte)
  | other (s : String)
deriving DecidableEq

/-- Idealized `pwd_context.verify` of the `CryptContext` in
`app/core/security.py`: verifying against an argon2 hash succeeds exactly
on the original bytes; a hash from no recognized scheme raises. -/
def cryptContextVerify (plain : List Byte) (hashed : HashVal) : Except String Bool :=
  match hashed with
  | HashVal.argon2 pw => Except.ok (pw == plain)
  | HashVal.other _ => Except.error "hash could not be identified"

/-- Embeds `get_password_hash` of `app/core/security.py`: hash the full
password with the default scheme (argon2), with no length check and no
truncation. -/
def get_password_hash (password : List Byte) : HashVal := HashVal.argon2 password

/-- Alias `hash_password` of `app/core/security.py`. -/
def hash_password (password : List Byte) : HashVal := get_password_hash password

/-- Control flow of `verify_password` of `app/core/security.py`,
parameterized by the underlying `pwd_context.verify` so that the claim
"any internal error is treated as verification failure" can be stated for
every possible behaviour of the hashing backend: a falsy stored hash
(absent, or the empty string) short-circuits to `false`, and a raising
backend is caught and mapped to `false`. -/
def verify_password_with (ctxVerify : List Byte → HashVal → Except String Bool)
    (plain : List Byte) (hashed : Option HashVal) : Bool :=
  match hashed with
  | none => false
  | some h =>
    if h = HashVal.other "" then false
    else
      match ctxVerify plain h with
      | Except.ok b => b
      | Except.error _ => false

/-- Embeds `verify_password` of `app/core/security.py` with the real
(idealized) argon2 backend. -/
def verify_password (plain : List Byte) (hashed : Option HashVal) : Bool :=
  verify_password_with cryptContextVerify plain hashed

/-- Helper for UTF-8 decoding: a continuation byte `0x80..0xBF`. -/
def isCont (b : Byte) : Bool := 0x80 ≤ b && b ≤ 0xBF

/-- Allowed second byte of a three-byte UTF-8 sequence (excludes overlong
encodings for `0xE0` and surrogates for `0xED`). -/
def utf8Second3 (b b1 : Byte) : Bool :=
  if b = 0xE0 then 0xA0 ≤ b1 && b1 ≤ 0xBF
  else if b = 0xED then 0x80 ≤ b1 && b1 ≤ 0x9F
  else isCont b1

/-- Allowed second byte of a four-byte UTF-8 sequence (excludes overlong
encodings for `0xF0` and out-of-range code points for `0xF4`). -/
def utf8Second4 (b b1 : Byte) : Bool :=
  if b = 0xF0 then 0x90 ≤ b1 && b1 ≤ 0xBF
  else if b = 0xF4 then 0x80 ≤ b1 && b1 ≤ 0x8F
  else isCont b1

/-- Recursion worker for `utf8IgnoreBytes`, structurally recursive on a
fuel bound (one unit per consumed leading byte suffices, since every step
removes at least the head). -/
def utf8IgnoreBytesAux : ℕ → List Byte → List Byte
  | 0, _ => []
  | _, [] => []
  | fuel + 1, b :: rest =>
    if b ≤ 0x7F then b :: utf8IgnoreBytesAux fuel rest
    else if 0xC2 ≤ b && b ≤ 0xDF then
      match rest with
      | [] => []
      | b1 :: rest2 =>
        if isCont b1 then b :: b1 :: utf8IgnoreBytesAux fuel rest2
        else utf8IgnoreBytesAux fuel (b1 :: rest2)
    else if 0xE0 ≤ b && b ≤ 0xEF then
      match rest with
      | b1 :: b2 :: rest3 =>
        if utf8Second3 b b1 && isCont b2 then b :: b1 :: b2 :: utf8IgnoreBytesAux fuel rest3
        else utf8IgnoreBytesAux fuel (b1 :: b2 :: rest3)
      | short => utf8IgnoreBytesAux fuel short
    else if 0xF0 ≤ b && b ≤ 0xF4 then
      match rest with
      | b1 :: b2 :: b3 :: rest4 =>
        if utf8Second4 b b1 && isCont b2 && isCont b3 then
          b :: b1 :: b2 :: b3 :: utf8IgnoreBytesAux fuel rest4
        else utf8IgnoreBytesAux fuel (b1 :: b2 :: b3 :: rest4)
      | short => utf8IgnoreBytesAux fuel short
    else utf8IgnoreBytesAux fuel rest

/-- The byte-level effect of `bytes.decode("utf-8", errors="ignore")`
followed by re-encoding (which `pwd_ctx.hash` performs): valid UTF-8
sequences are kept, undecodable bytes are dropped. On ASCII input this is
the identity. -/
def utf8IgnoreBytes (l : List Byte) : List Byte := utf8IgnoreBytesAux l.length l

/-- The password transformation of `create_user` in `app/crud/users.py`
(lines 82-88): encode to UTF-8, truncate to the bcrypt limit of 72 bytes
when longer, decode with `errors="ignore"`. -/
def truncatePassword (pw : List Byte) : List Byte :=
  if pw.length ≤ 72 then pw else utf8IgnoreBytes (pw.take 72)

/-- The `hashed_password` value `create_user` stores: the truncated
password hashed with the backend `CryptContext` (argon2). -/
def create_user_hashed_password (pw : List Byte) : HashVal :=
  HashVal.argon2 (truncatePassword pw)

/-! Token service (`app/core/security.py`) and admin check
(`app/routers/auth.py`). Timestamps are integer Unix seconds. -/

/-- The claims of a decoded JWT that `require_admin` reads. -/
structure TokenPayload where
  sub : Option String
  iat : Option ℤ
  exp : ℤ
deriving DecidableEq

/-- Embeds `create_access_token` of `app/core/security.py` for a string
subject: the payload carries `sub`, `iat = now` and `exp = now + ttl`. -/
def create_access_token (subject : String) (now ttlSeconds : ℤ) : TokenPayload :=
  { sub := some subject, iat := some now, exp := now + ttlSeconds }

/-- Embeds `decode_access_token` (`jose.jwt.decode`): raises on a bad
signature (`sigOk = false`) or an expired token (`exp < now`), otherwise
returns the payload. -/
def decode_access_token (sigOk : Bool) (now : ℤ) (p : TokenPayload) :
    Except String TokenPayload :=
  if sigOk = false then Except.error "invalid signature"
  else if p.exp < now then Except.error "token expired"
  else Except.ok p

/-- A document of the `users` collection as read by `require_admin`. -/
structure UserDoc where
  email : String
  hashed_password : Option HashVal
  password_changed_at : Option ℤ
  roles : List String
  role : Option String
deriving DecidableEq

/-- Embeds `_ts_from_value` of `app/routers/auth.py`: a missing
`password_changed_at` normalizes to `0` (int and datetime values both
become their integer timestamp). -/
def tsFromValue (v : Option ℤ) : ℤ := v.getD 0

/-- Role list of a user as computed by `require_admin`: the `roles` list
merged with the single `role` field (modelled up to membership, which is
all the `any(...)` check consumes). -/
def effectiveRoles (u : UserDoc) : List String :=
  u.roles ++ (match u.role with | some r => [r] | none => [])

/-- Embeds `require_admin` of `app/routers/auth.py`, applied to the
outcome of `decode_access_token` and a lookup function for
`_fetch_user_by_id_or_email`. In source order: decode failure is 401, a
falsy `sub` is 401, an unknown user is 401, a token `iat` (default 0)
strictly below the user's `password_changed_at` (default 0) is 401
(revocation), a user without the `admin` or `owner` role is 403, and
otherwise the user document is returned with `hashed_password` popped. -/
def require_admin (decoded : Except String TokenPayload)
    (lookupUser : String → Option UserDoc) : Except ℕ UserDoc :=
  match decoded with
  | Except.error _ => Except.error 401
  | Except.ok payload =>
    match payload.sub with
    | none => Except.error 401
    | some uid =>
      if uid = "" then Except.error 401
      else
        match lookupUser uid with
        | none => Except.error 401
        | some user =>
          if payload.iat.getD 0 < tsFromValue user.password_changed_at then
            Except.error 401
          else if "admin" ∈ effectiveRoles user ∨ "owner" ∈ effectiveRoles user then
            Except.ok { user with hashed_password := none }
          else Except.error 403

/-! Password-reset router (`app/routers/password_reset_db.py`). -/

/-- The `password_reset` subdocument `$set` by `forgot_password`. -/
structure PasswordResetEntry where
  token_hash : String
  expires_at : ℤ
  created_at : ℤ
deriving DecidableEq

/-- The `users` fields `forgot_password` reads. -/
structure ResetUserDoc where
  email : String
  last_reset_sent_at : Option ℤ
deriving DecidableEq

/-- Outcome of `forgot_password`: the JSON response (detail message plus
the optional `reset_token` field) and the `password_reset` entry written
to the user document (`none` when nothing was written). -/
structure ForgotPasswordResult where
  detail : String
  reset_token : Option String
  stored : Option PasswordResetEntry
deriving DecidableEq

/-- Embeds `forgot_password` of `app/routers/password_reset_db.py`.
`hashToken` abstracts `_hash_token` (SHA-256 hex digest), `token` the
freshly generated `secrets` token, `user` the `users` lookup result for
the already-normalized `email`, and `appEnv` the `APP_ENV` variable
(`none` when unset, defaulted to `"development"` by `os.getenv`). In
source order: a configured `SITE_ADMIN_EMAIL` that differs from the
requested email, an unknown user, and a request within 60 seconds of the
previous one all return the generic message with nothing written; then
the hashed token and expiry are stored, and in development mode (default
`APP_ENV`, or `FASTAPI_ENV == "dev"`) the response additionally carries
the plaintext token. -/
def forgot_password (hashToken : String → String) (siteAdminEmail : String)
    (appEnv : Option String) (fastapiEnv : String) (email : String)
    (user : Option ResetUserDoc) (now : ℤ) (token : String)
    (expireMinutes : ℤ) : ForgotPasswordResult :=
  let generic : ForgotPasswordResult :=
    { detail := "If an account with that email exists, a password reset link has been sent.",
      reset_token := none, stored := none }
  if siteAdminEmail ≠ "" ∧ email ≠ siteAdminEmail then generic
  else
    match user with
    | none => generic
    | some u =>
      if now - (u.last_reset_sent_at.getD 0) < 60 then generic
      else
        let entry : PasswordResetEntry :=
          { token_hash := hashToken token,
            expires_at := now + expireMinutes * 60,
            created_at := now }
        if appEnv.getD "development" = "development" ∨ fastapiEnv = "dev" then
          { detail := "reset created (dev)", reset_token := some token, stored := some entry }
        else
          { detail := generic.detail, reset_token := none, stored := some entry }

/-! Concrete instances used by the end-to-end scenario, counterexamples
and witnesses. -/

/-- Create-order body of the end-to-end payment scenario: `amount = 499`
rupees. -/
def c1Payload : OrderCreate :=
  { email := "buyer@example.com",
    items := [{ product_id := "p1", name := "Jeans", price := 499, quantity := 1 }],
    amount := 499, shipping_address := "12 Main St" }

/-- Result of the create-order call of the scenario, from an empty
database, with the gateway assigning order id `order_rz1`. -/
def c1Created : Except ℕ CreateOrderResp × DBState :=
  create_order c1Payload "order_rz1" { orders := [], payments := [] }

/-- Verify body whose signature the gateway accepts. -/
def c1GoodVerify : VerifyPayload :=
  { razorpay_order_id := "order_rz1", razorpay_payment_id := "pay_1",
    razorpay_signature := "good_sig" }

/-- Verify body whose signature the gateway rejects. -/
def c1BadVerify : VerifyPayload :=
  { razorpay_order_id := "order_rz1", razorpay_payment_id := "pay_1",
    razorpay_signature := "bad_sig" }

/-- A delivered order owned by `c2@example.com` whose single line item
has price 1.999 rupees — a price where truncation and rounding of
`price * 100` differ. -/
def c2Order : OrderDoc :=
  { email := some "c2@example.com",
    items := [{ product_id := "p9", name := "Kurti", price := 1999/1000, quantity := 1 }],
    amount := 1999/1000, shipping_address := some "addr",
    razorpay_order_id := some "order_c2", razorpay_payment_id := some "pay_c2",
    customer_email := some "c2@example.com", status := "delivered" }

/-- Return request for the item of `c2Order`. -/
def c2Payload : ReturnCreate :=
  { order_id := "oid_c2", product_id := "p9", reason := "too small" }

/-- A delivered order with an integer-priced line item, for the witness
of the amended refund-amount claim. -/
def c2wOrder : OrderDoc :=
  { email := some "w@example.com",
    items := [{ product_id := "pw", name := "Saree", price := 250, quantity := 1 }],
    amount := 250, shipping_address := some "addr",
    razorpay_order_id := some "order_w", razorpay_payment_id := some "pay_w",
    customer_email := some "w@example.com", status := "delivered" }

/-- A pending return request with payment id and refund amount present. -/
def c3Req : ReturnRequestDoc :=
  { order_id := "oid_3", product_id := "p3", customer_email := some "c3@example.com",
    reason := "defect", status := "pending", refund_amount := some 19900,
    razorpay_payment_id := some "pay_3", razorpay_refund_id := none, admin_note := none }

/-- A pending return request used for the refund-failure claim. -/
def c4Req : ReturnRequestDoc :=
  { order_id := "oid_4", product_id := "p4", customer_email := some "c4@example.com",
    reason := "wrong size", status := "pending", refund_amount := some 49900,
    razorpay_payment_id := some "pay_4", razorpay_refund_id := none, admin_note := none }

/-- An existing catalog product with a valid taxonomy pair. -/
def c6Existing : ProductDoc :=
  { title := "Basic Tee", gender := "men", category := "clothing",
    subcategory := "tshirt", price := 499 }

/-- A 73-byte ASCII password (73 times `a`), one byte over the bcrypt
limit enforced by `create_user`. -/
def c7LongPw : List Byte := List.replicate 73 97

/-! Claim theorems. -/

/-- C1: calling the payment create-order operation with amount 499 rupees
creates a gateway order over 49900 minor units and persists an order with
status `PENDING_PAYMENT`; a verify call with a matching signature sets the
order's status to `PAID` and inserts exactly one payment record; a verify
call with a non-matching signature sets the order's status to `FAILED`
and returns HTTP 400. -/
theorem c1_payment_end_to_end_499 :
    c1Created.1 =
      Except.ok { gateway_amount_paise := 49900, order_id := "order_rz1", amount := 499 }
    ∧ c1Created.2.orders.map OrderDoc.status = ["PENDING_PAYMENT"]
    ∧ (verify_payment true c1GoodVerify c1Created.2).1 = Except.ok ()
    ∧ (verify_payment true c1GoodVerify c1Created.2).2.orders.map OrderDoc.status = ["PAID"]
    ∧ (verify_payment true c1GoodVerify c1Created.2).2.payments =
        [{ order_id := "order_rz1", payment_id := "pay_1", signature := "good_sig" }]
    ∧ (verify_payment false c1BadVerify c1Created.2).1 = Except.error 400
    ∧ (verify_payment false c1BadVerify c1Created.2).2.orders.map OrderDoc.status = ["FAILED"] := by
  norm_num [c1Created, c1Payload, c1GoodVerify, c1BadVerify, create_order, verify_payment,
    pyRound, updateFirst]

/-- C2 counterexample: the delivered order `c2Order` has the line item
`p9` at price `P = 1.999` rupees; creating a return request for `p9`
records `refund_amount = 199` (the truncation `int(P * 100)`), while
`round(P * 100) = 200`, so the recorded amount is not `round(P*100)`. -/
theorem c2_refund_not_rounded :
    create_return_request c2Payload (some "c2@example.com") (some c2Order) =
      Except.ok
        { order_id := "oid_c2", product_id := "p9",
          customer_email := some "c2@example.com", reason := "too small",
          status := "pending", refund_amount := some 199,
          razorpay_payment_id := some "pay_c2", razorpay_refund_id := none,
          admin_note := none }
    ∧ pyRound ((1999/1000 : ℚ) * 100) = 200 ∧ (199 : ℤ) ≠ 200 := by
  refine ⟨?_, by norm_num [pyRound], by norm_num⟩
  norm_num [create_return_request, c2Payload, c2Order, computeRefundPaise, pyInt]

/-- C2 (amended): for a delivered order owned by the requester, a return
request for product `X` records `refund_amount = int(P * 100)` minor
units — `P * 100` truncated toward zero — where `P` is the price of the
first line item with `product_id = X`; a request for a `product_id`
absent from the line items is rejected with 400, as is one whose
computed amount is zero. The amount is computed once, at creation time,
and stored in the new document. -/
theorem c2_refund_amount_amended (o : OrderDoc) (rp : ReturnCreate) (ue : Option String)
    (hown : o.customer_email = ue) (hst : o.status = "delivered") :
    (∀ it, o.items.find? (fun i => i.product_id == rp.product_id) = some it →
        pyInt (it.price * 100) ≠ 0 →
        create_return_request rp ue (some o) =
          Except.ok
            { order_id := rp.order_id, product_id := rp.product_id,
              customer_email := ue, reason := rp.reason, status := "pending",
              refund_amount := some (pyInt (it.price * 100)),
              razorpay_payment_id := o.razorpay_payment_id,
              razorpay_refund_id := none, admin_note := none })
    ∧ (o.items.find? (fun i => i.product_id == rp.product_id) = none →
        create_return_request rp ue (some o) = Except.error 400)
    ∧ (∀ it, o.items.find? (fun i => i.product_id == rp.product_id) = some it →
        pyInt (it.price * 100) = 0 →
        create_return_request rp ue (some o) = Except.error 400) := by
  refine ⟨?_, ?_, ?_⟩
  · intro it hfind hne
    simp [create_return_request, hown, hst, computeRefundPaise, hfind, hne]
  · intro hfind
    simp [create_return_request, hown, hst, computeRefundPaise, hfind]
  · intro it hfind hz
    simp [create_return_request, hown, hst, computeRefundPaise, hfind, hz]

/-- C2 witness: the amended refund-amount claim at a concrete delivered
order with a 250-rupee item (refund 25000 paise) and at a product id the
order does not contain. -/
theorem c2_refund_amount_amended_witness :
    create_return_request { order_id := "ow", product_id := "pw", reason := "late" }
        (some "w@example.com") (some c2wOrder) =
      Except.ok
        { order_id := "ow", product_id := "pw",
          customer_email := some "w@example.com", reason := "late",
          status := "pending", refund_amount := some 25000,
          razorpay_payment_id := some "pay_w",
          razorpay_refund_id := none, admin_note := none }
    ∧ create_return_request { order_id := "ow", product_id := "nope", reason := "late" }
        (some "w@example.com") (some c2wOrder) = Except.error 400 := by
  constructor
  · have h := (c2_refund_amount_amended c2wOrder
      { order_id := "ow", product_id := "pw", reason := "late" }
      (some "w@example.com") rfl rfl).1
      { product_id := "pw", name := "Saree", price := 250, quantity := 1 }
      (by simp [c2wOrder]) (by norm_num [pyInt])
    norm_num [pyInt, c2wOrder] at h
    exact h
  · exact (c2_refund_amount_amended c2wOrder
      { order_id := "ow", product_id := "nope", reason := "late" }
      (some "w@example.com") rfl rfl).2.1 (by simp [c2wOrder])

/-- C3: approving a return request whose status is not yet `refunded` or
`approved` (with payment id and refund amount present and the gateway
refund succeeding with id `rid`) transitions it to `refunded` and stores
the gateway's refund identifier; approving a request already `refunded`
or `approved` is rejected with 400 and leaves the document unchanged;
rejecting is allowed only from `pending` or `pickup-scheduled`, so
rejecting a `refunded` request is rejected with 400. -/
theorem c3_return_state_machine (req : ReturnRequestDoc) (idr : String)
    (note : Option String) :
    (∀ rid, req.status ≠ "refunded" → req.status ≠ "approved" →
        isFalsyStr req.razorpay_payment_id = false →
        isFalsyInt req.refund_amount = false →
        admin_action { request_id := idr, action := "approve", admin_note := note } req
            (Except.ok (some rid)) =
          (Except.ok (),
            { req with status := "refunded", razorpay_refund_id := some rid,
                       admin_note := note }))
    ∧ (∀ outcome, (req.status = "refunded" ∨ req.status = "approved") →
        admin_action { request_id := idr, action := "approve", admin_note := note } req
            outcome = (Except.error 400, req))
    ∧ (∀ outcome, req.status = "refunded" →
        admin_action { request_id := idr, action := "reject", admin_note := note } req
            outcome = (Except.error 400, req)) := by
  refine ⟨?_, ?_, ?_⟩
  · intro rid h1 h2 h3 h4
    simp [admin_action, h1, h2, h3, h4]
  · intro outcome h
    simp [admin_action, h]
  · intro outcome h
    simp [admin_action, h]

/-- C3 witness: the state machine at the concrete pending request
`c3Req`: a first approval refunds it, approving the refunded result is
rejected, and rejecting the refunded result is rejected. -/
theorem c3_return_state_machine_witness :
    admin_action { request_id := "r3", action := "approve", admin_note := some "ok" } c3Req
        (Except.ok (some "rfnd_1")) =
      (Except.ok (),
        { c3Req with status := "refunded", razorpay_refund_id := some "rfnd_1",
                     admin_note := some "ok" })
    ∧ admin_action { request_id := "r3", action := "approve", admin_note := some "again" }
        { c3Req with status := "refunded", razorpay_refund_id := some "rfnd_1",
                     admin_note := some "ok" }
        (Except.ok (some "rfnd_2")) =
      (Except.error 400,
        { c3Req with status := "refunded", razorpay_refund_id := some "rfnd_1",
                     admin_note := some "ok" })
    ∧ admin_action { request_id := "r3", action := "reject", admin_note := some "no" }
        { c3Req with status := "refunded", razorpay_refund_id := some "rfnd_1",
                     admin_note := some "ok" }
        (Except.ok none) =
      (Except.error 400,
        { c3Req with status := "refunded", razorpay_refund_id := some "rfnd_1",
                     admin_note := some "ok" }) := by
  refine ⟨?_, ?_, ?_⟩
  · exact (c3_return_state_machine c3Req "r3" (some "ok")).1 "rfnd_1"
      (by simp [c3Req]) (by simp [c3Req]) (by simp [c3Req, isFalsyStr])
      (by simp [c3Req, isFalsyInt])
  · exact (c3_return_state_machine _ "r3" (some "again")).2.1 _ (Or.inl rfl)
  · exact (c3_return_state_machine _ "r3" (some "no")).2.2 _ rfl

/-- C4: when the gateway refund call of a return-request approval fails,
the admin action raises HTTP 500 and the stored document is unchanged —
its status is not set to `refunded` and no refund identifier is
recorded. -/
theorem c4_refund_failure_leaves_request_unchanged (req : ReturnRequestDoc)
    (idr : String) (note : Option String) (e : String)
    (h1 : req.status ≠ "refunded") (h2 : req.status ≠ "approved")
    (h3 : isFalsyStr req.razorpay_payment_id = false)
    (h4 : isFalsyInt req.refund_amount = false) :
    admin_action { request_id := idr, action := "approve", admin_note := note } req
        (Except.error e) = (Except.error 500, req) := by
  simp [admin_action, h1, h2, h3, h4]

/-- C4 witness: the refund-failure claim at the concrete pending request
`c4Req` with a failing gateway call. -/
theorem c4_refund_failure_witness :
    admin_action { request_id := "r4", action := "approve", admin_note := none } c4Req
        (Except.error "gateway down") = (Except.error 500, c4Req) := by
  exact c4_refund_failure_leaves_request_unchanged c4Req "r4" none "gateway down"
    (by simp [c4Req]) (by simp [c4Req]) (by simp [c4Req, isFalsyStr])
    (by simp [c4Req, isFalsyInt])

/-- C9: every order persisted by the payment create-order flow stores the
buyer's address under `email` and never sets `customer_email`; a return
request by that same buyer against such an order is rejected with 403
(`Order does not belong to user`), because `create_return_request`
compares the absent `customer_email` field with the requester's email. -/
theorem c9_payment_orders_fail_ownership_check (payload : OrderCreate) (rzId : String)
    (st : DBState) (rp : ReturnCreate) (h : 0 < payload.amount) :
    ∃ doc : OrderDoc,
      (create_order payload rzId st).2.orders = st.orders ++ [doc]
      ∧ doc.customer_email = none
      ∧ doc.email = some payload.email
      ∧ create_return_request rp (some payload.email) (some doc) = Except.error 403 := by
  have hne : ¬payload.amount ≤ 0 := not_le.mpr h
  refine ⟨{ email := some payload.email, items := payload.items, amount := payload.amount,
            shipping_address := some payload.shipping_address,
            razorpay_order_id := some rzId, razorpay_payment_id := none,
            customer_email := none, status := "PENDING_PAYMENT" }, ?_, rfl, rfl, ?_⟩
  · simp [create_order, hne]
  · simp [create_return_request]

/-- C9 witness: the ownership-check failure at the concrete scenario
order (amount 499, buyer `buyer@example.com`). -/
theorem c9_payment_orders_fail_ownership_check_witness :
    ∃ doc : OrderDoc,
      (create_order c1Payload "order_rz9" { orders := [], payments := [] }).2.orders = [doc]
      ∧ doc.customer_email = none
      ∧ doc.email = some "buyer@example.com"
      ∧ create_return_request { order_id := "o9", product_id := "p1", reason := "bad fit" }
          (some "buyer@example.com") (some doc) = Except.error 403 := by
  obtain ⟨doc, h1, h2, h3, h4⟩ := c9_payment_orders_fail_ownership_check c1Payload "order_rz9"
    { orders := [], payments := [] }
    { order_id := "o9", product_id := "p1", reason := "bad fit" }
    (by norm_num [c1Payload])
  exact ⟨doc, by simpa using h1, h2, by simpa [c1Payload] using h3, h4⟩

/-- C10 counterexample: a forgot-password request for a registered and
permitted email (`SITE_ADMIN_EMAIL` unset), with `APP_ENV` unset (so the
development default applies), made 30 seconds after the previous reset
for the same user, returns only the generic message: the response body
carries no `reset_token` and nothing is stored. -/
theorem c10_rate_limited_request_returns_no_token :
    forgot_password (fun t => String.append "sha256:" t) "" none ""
        "admin@example.com"
        (some { email := "admin@example.com", last_reset_sent_at := some 1000 })
        1030 "tok123" 60 =
      { detail := "If an account with that email exists, a password reset link has been sent.",
        reset_token := none, stored := none } := by
  norm_num [forgot_password]

/-- C10 (amended): for every forgot-password request naming a registered
and permitted email, made at least 60 seconds after the previous reset
for that user, when `APP_ENV` is unset or equal to `development` the
response body contains the plaintext reset token in the `reset_token`
field, while only the token's hash (`_hash_token`) is stored in the user
document. -/
theorem c10_dev_mode_leaks_reset_token (hashToken : String → String)
    (siteAdminEmail : String) (appEnv : Option String) (fe email : String)
    (u : ResetUserDoc) (now expMin : ℤ) (token : String)
    (hperm : siteAdminEmail = "" ∨ email = siteAdminEmail)
    (hrate : 60 ≤ now - u.last_reset_sent_at.getD 0)
    (hdev : appEnv.getD "development" = "development") :
    forgot_password hashToken siteAdminEmail appEnv fe email (some u) now token expMin =
      { detail := "reset created (dev)", reset_token := some token,
        stored := some { token_hash := hashToken token, expires_at := now + expMin * 60,
                         created_at := now } } := by
  have hr : ¬now - u.last_reset_sent_at.getD 0 < 60 := not_lt.mpr hrate
  rcases hperm with hp | hp <;> simp [forgot_password, hp, hr, hdev]

/-- C10 witness: the amended claim at a concrete registered admin email
with `SITE_ADMIN_EMAIL` and `APP_ENV` unset and no recent reset. -/
theorem c10_dev_mode_leaks_reset_token_witness :
    forgot_password (fun t => String.append "sha256:" t) "" none ""
        "admin@example.com"
        (some { email := "admin@example.com", last_reset_sent_at := none })
        5000 "tok456" 60 =
      { detail := "reset created (dev)", reset_token := some "tok456",
        stored := some { token_hash := String.append "sha256:" "tok456",
                         expires_at := 5000 + 60 * 60, created_at := 5000 } } := by
  exact c10_dev_mode_leaks_reset_token (fun t => String.append "sha256:" t) "" none ""
    "admin@example.com" { email := "admin@example.com", last_reset_sent_at := none }
    5000 60 "tok456" (Or.inl rfl) (by norm_num) rfl

/-- C6 counterexample: an update that supplies only
`subcategory = "sneakers"` — a subcategory outside every allowed list —
succeeds against an existing `clothing` product, because the pydantic
update validator skips the membership check when no category is supplied
and the router cross-check requires both fields; so not every
out-of-taxonomy pair is rejected on update. -/
theorem c6_subcategory_only_update_unvalidated :
    update_product none (some "sneakers") c6Existing =
      Except.ok { c6Existing with subcategory := "sneakers" }
    ∧ inTaxonomy "clothing" "sneakers" = false := by
  constructor
  · have hn : pyNorm "sneakers" = "sneakers" := by decide
    simp [update_product, validate_category_update, validate_subcategory_update,
      validate_subcategory, Except.map, hn]
  · decide

/-- C6 (amended): on create, a product whose (normalized)
category/subcategory pair lies in the fixed taxonomy is accepted and any
other pair is rejected, given the remaining fields are valid; on update
the same characterization holds when both fields are supplied, and a
category-only update is validated against the category key set — but a
subcategory-only update is accepted verbatim with no taxonomy validation
at all. -/
theorem c6_taxonomy_validation_amended :
    (∀ p : ProductPayload, 1 ≤ p.title.length →
        (p.gender = "men" ∨ p.gender = "women") → 0 ≤ p.price →
        ((∃ d, create_product p = Except.ok d) ↔
          inTaxonomy p.category p.subcategory = true))
    ∧ (∀ c s ex, (∃ d, update_product (some c) (some s) ex = Except.ok d) ↔
        inTaxonomy c s = true)
    ∧ (∀ c ex, (∃ d, update_product (some c) none ex = Except.ok d) ↔
        (allowedSubcategories (pyNorm c)).isSome = true)
    ∧ (∀ s ex, update_product none (some s) ex =
        Except.ok { ex with subcategory := pyNorm s }) := by
  have hval : ∀ v : String,
      validate_category v = (match allowedSubcategories (pyNorm v) with
        | some _ => Except.ok (pyNorm v)
        | none => Except.error "category must be one of") := by
    intro v
    rcases h : allowedSubcategories (pyNorm v) with _ | l <;>
      simp [validate_category, h]
  refine ⟨?_, ?_, ?_, ?_⟩
  · intro p ht hg hp
    have h1 : ¬p.title.length < 1 := by omega
    have h3 : ¬p.price < 0 := not_lt.mpr hp
    rcases hA : allowedSubcategories (pyNorm p.category) with _ | l
    · simp [create_product, validateProductCreate, h1, hg, h3, hval, hA, inTaxonomy]
    · by_cases hl : l = []
      · subst hl
        simp [create_product, validateProductCreate, h1, hg, h3, hval, hA,
          validate_subcategory, inTaxonomy]
      · by_cases hm : pyNorm p.subcategory ∈ l
        · simp [create_product, validateProductCreate, h1, hg, h3, hval, hA,
            validate_subcategory, hl, hm, inTaxonomy]
        · simp [create_product, validateProductCreate, h1, hg, h3, hval, hA,
            validate_subcategory, hl, hm, inTaxonomy]
  · intro c s ex
    rcases hA : allowedSubcategories (pyNorm c) with _ | l
    · simp [update_product, validate_category_update, validate_subcategory_update,
        hval, hA, Except.map, inTaxonomy]
    · by_cases hl : l = []
      · subst hl
        simp [update_product, validate_category_update, validate_subcategory_update,
          validate_subcategory, hval, hA, Except.map, inTaxonomy]
      · by_cases hm : pyNorm s ∈ l
        · simp [update_product, validate_category_update, validate_subcategory_update,
            validate_subcategory, hval, hA, hl, hm, Except.map, inTaxonomy]
        · simp [update_product, validate_category_update, validate_subcategory_update,
            validate_subcategory, hval, hA, hl, hm, Except.map, inTaxonomy]
  · intro c ex
    rcases hA : allowedSubcategories (pyNorm c) with _ | l <;>
      simp [update_product, validate_category_update, validate_subcategory_update,
        hval, hA, Except.map]
  · intro s ex
    simp [update_product, validate_category_update, validate_subcategory_update,
      validate_subcategory, Except.map]

/-- C6 witness: the amended taxonomy claim at concrete inputs — a create
with the valid pair (`Clothing`, `Jeans`) succeeds (after normalization),
and an update supplying the invalid pair (`clothing`, `sneakers`) is
rejected. -/
theorem c6_taxonomy_validation_amended_witness :
    (∃ d, create_product
        { title := "Denim", gender := "men", category := "Clothing",
          subcategory := "Jeans", price := 999 } = Except.ok d)
    ∧ ¬(∃ d, update_product (some "clothing") (some "sneakers") c6Existing = Except.ok d) := by
  constructor
  · exact (c6_taxonomy_validation_amended.1
      { title := "Denim", gender := "men", category := "Clothing",
        subcategory := "Jeans", price := 999 }
      (by decide) (Or.inl rfl) (by norm_num)).mpr (by decide)
  · intro hcontra
    exact absurd
      ((c6_taxonomy_validation_amended.2.1 "clothing" "sneakers" c6Existing).mp hcontra)
      (by decide)

/-- Helper: the undecodable-byte filter never lengthens its input. -/
theorem utf8IgnoreBytesAux_length_le (fuel : ℕ) :
    ∀ l : List Byte, (utf8IgnoreBytesAux fuel l).length ≤ l.length := by
  induction fuel with
  | zero => intro l; cases l <;> simp [utf8IgnoreBytesAux]
  | succ fuel ih =>
    intro l
    cases l with
    | nil => simp [utf8IgnoreBytesAux]
    | cons b rest =>
      by_cases h1 : b ≤ 0x7F
      · have := ih rest
        simp only [utf8IgnoreBytesAux, if_pos h1, List.length_cons]
        omega
      · rw [show utf8IgnoreBytesAux (fuel + 1) (b :: rest) =
              (if b ≤ 0x7F then b :: utf8IgnoreBytesAux fuel rest
               else if 0xC2 ≤ b && b ≤ 0xDF then
                 match rest with
                 | [] => []
                 | b1 :: rest2 =>
                   if isCont b1 then b :: b1 :: utf8IgnoreBytesAux fuel rest2
                   else utf8IgnoreBytesAux fuel (b1 :: rest2)
               else if 0xE0 ≤ b && b ≤ 0xEF then
                 match rest with
                 | b1 :: b2 :: rest3 =>
                   if utf8Second3 b b1 && isCont b2 then
                     b :: b1 :: b2 :: utf8IgnoreBytesAux fuel rest3
                   else utf8IgnoreBytesAux fuel (b1 :: b2 :: rest3)
                 | short => utf8IgnoreBytesAux fuel short
               else if 0xF0 ≤ b && b ≤ 0xF4 then
                 match rest with
                 | b1 :: b2 :: b3 :: rest4 =>
                   if utf8Second4 b b1 && isCont b2 && isCont b3 then
                     b :: b1 :: b2 :: b3 :: utf8IgnoreBytesAux fuel rest4
                   else utf8IgnoreBytesAux fuel (b1 :: b2 :: b3 :: rest4)
                 | short => utf8IgnoreBytesAux fuel short
               else utf8IgnoreBytesAux fuel rest) from rfl]
        rw [if_neg h1]
        by_cases h2 : (0xC2 ≤ b && b ≤ 0xDF) = true
        · rw [if_pos h2]
          cases rest with
          | nil => simp
          | cons b1 rest2 =>
            by_cases h3 : isCont b1 = true
            · have := ih rest2
              simp only [if_pos h3, List.length_cons]
              omega
            · have := ih (b1 :: rest2)
              simp only [if_neg h3, List.length_cons] at this ⊢
              omega
        · rw [if_neg h2]
          by_cases h4 : (0xE0 ≤ b && b ≤ 0xEF) = true
          · rw [if_pos h4]
            match rest with
            | [] => have := ih []; simp at this; simp [this]
            | [b1] => have := ih [b1]; simp at this ⊢; omega
            | b1 :: b2 :: rest3 =>
              by_cases h5 : (utf8Second3 b b1 && isCont b2) = true
              · have := ih rest3
                simp only [if_pos h5, List.length_cons]
                omega
              · have := ih (b1 :: b2 :: rest3)
                simp only [if_neg h5, List.length_cons] at this ⊢
                omega
          · rw [if_neg h4]
            by_cases h6 : (0xF0 ≤ b && b ≤ 0xF4) = true
            · rw [if_pos h6]
              match rest with
              | [] => have := ih []; simp at this; simp [this]
              | [b1] => have := ih [b1]; simp at this ⊢; omega
              | [b1, b2] => have := ih [b1, b2]; simp at this ⊢; omega
              | b1 :: b2 :: b3 :: rest4 =>
                by_cases h7 : (utf8Second4 b b1 && isCont b2 && isCont b3) = true
                · have := ih rest4
                  simp only [if_pos h7, List.length_cons]
                  omega
                · have := ih (b1 :: b2 :: b3 :: rest4)
                  simp only [if_neg h7, List.length_cons] at this ⊢
                  omega
            · rw [if_neg h6]
              have := ih rest
              simp only [List.length_cons]
              omega

/-- Helper: the stored password of `create_user` is at most 72 bytes. -/
theorem truncatePassword_length_le (pw : List Byte) :
    (truncatePassword pw).length ≤ 72 := by
  rw [truncatePassword]
  by_cases h : pw.length ≤ 72
  · rw [if_pos h]; exact h
  · rw [if_neg h]
    calc (utf8IgnoreBytes (pw.take 72)).length
        ≤ (pw.take 72).length := utf8IgnoreBytesAux_length_le _ _
      _ ≤ 72 := by simp

/-- C7 counterexample: the 73-byte password `c7LongPw` exceeds the
72-byte limit; the hashing path of `create_user` truncates it to 72
bytes before hashing while `verify_password` applies no truncation at
all, so the two sides do not apply the same transformation and the
password stored through `create_user` fails verification — it does not
round-trip. -/
theorem c7_long_password_fails_round_trip :
    72 < c7LongPw.length
    ∧ truncatePassword c7LongPw ≠ c7LongPw
    ∧ verify_password c7LongPw (some (create_user_hashed_password c7LongPw)) = false := by
  refine ⟨by decide, by decide, by decide⟩

/-- C7 (amended): a password of at most 72 UTF-8 bytes round-trips
through `verify_password ∘ hash_password`; in fact `hash_password`
applies no truncation, so every password round-trips through that pair;
but `create_user` truncates to 72 bytes before hashing while the
verification path truncates nothing, so a password longer than 72 bytes
whose hash was stored by `create_user` always fails verification. -/
theorem c7_hash_verify_round_trip_amended :
    (∀ pw : List Byte, pw.length ≤ 72 →
        verify_password pw (some (get_password_hash pw)) = true)
    ∧ (∀ pw : List Byte, verify_password pw (some (hash_password pw)) = true)
    ∧ (∀ pw : List Byte, 72 < pw.length →
        verify_password pw (some (create_user_hashed_password pw)) = false) := by
  refine ⟨fun pw _ => ?_, fun pw => ?_, fun pw h => ?_⟩
  · simp [verify_password, verify_password_with, get_password_hash, cryptContextVerify]
  · simp [verify_password, verify_password_with, hash_password, get_password_hash,
      cryptContextVerify]
  · have hlen : (truncatePassword pw).length ≤ 72 := truncatePassword_length_le pw
    have hne : truncatePassword pw ≠ pw := by
      intro he
      rw [he] at hlen
      omega
    simp [verify_password, verify_password_with, create_user_hashed_password,
      cryptContextVerify, hne]

/-- C7 witness: the amended round-trip claim at the 4-byte password
`jlrp` and at the 73-byte password `c7LongPw`. -/
theorem c7_hash_verify_round_trip_amended_witness :
    verify_password [106, 108, 114, 112] (some (get_password_hash [106, 108, 114, 112])) = true
    ∧ verify_password [106, 108, 114, 112] (some (hash_password [106, 108, 114, 112])) = true
    ∧ verify_password c7LongPw (some (create_user_hashed_password c7LongPw)) = false := by
  exact ⟨c7_hash_verify_round_trip_amended.1 [106, 108, 114, 112] (by decide),
         c7_hash_verify_round_trip_amended.2.1 [106, 108, 114, 112],
         c7_hash_verify_round_trip_amended.2.2 c7LongPw (by decide)⟩

/-- C8: `verify_password` is total and never surfaces an internal error:
for every behaviour of the underlying `pwd_context.verify`, a missing
stored hash and an empty stored hash verify to `false`, a raising
backend is mapped to `false`, and a `true` result can only come from the
backend succeeding with `true`. -/
theorem c8_verify_password_never_raises (ctx : List Byte → HashVal → Except String Bool)
    (plain : List Byte) :
    verify_password_with ctx plain none = false
    ∧ verify_password_with ctx plain (some (HashVal.other "")) = false
    ∧ (∀ h e, ctx plain h = Except.error e →
        verify_password_with ctx plain (some h) = false)
    ∧ (∀ h, verify_password_with ctx plain (some h) = true →
        ctx plain h = Except.ok true) := by
  refine ⟨rfl, by simp [verify_password_with], ?_, ?_⟩
  · intro h e he
    by_cases hh : h = HashVal.other ""
    · simp [verify_password_with, hh]
    · simp [verify_password_with, hh, he]
  · intro h hv
    by_cases hh : h = HashVal.other ""
    · simp [verify_password_with, hh] at hv
    · rcases hc : ctx plain h with e' | b
      · simp [verify_password_with, hh, hc] at hv
      · simp [verify_password_with, hh, hc] at hv
        rw [hv]

/-- C8 witness: the totality claim at a backend that always raises and
at missing/empty stored hashes. -/
theorem c8_verify_password_never_raises_witness :
    verify_password_with (fun _ _ => Except.error "boom") [0] none = false
    ∧ verify_password_with (fun _ _ => Except.error "boom") [0]
        (some (HashVal.other "")) = false
    ∧ verify_password_with (fun _ _ => Except.error "boom") [0]
        (some (HashVal.argon2 [1])) = false := by
  exact ⟨(c8_verify_password_never_raises (fun _ _ => Except.error "boom") [0]).1,
         (c8_verify_password_never_raises (fun _ _ => Except.error "boom") [0]).2.1,
         (c8_verify_password_never_raises (fun _ _ => Except.error "boom") [0]).2.2.1
           (HashVal.argon2 [1]) "boom" rfl⟩

/-- C5: an access token is accepted until its `exp` (given a valid
signature, a known subject and an admin/owner role) as long as its `iat`
is not strictly below the subject's `password_changed_at`; whenever
`iat < password_changed_at` the check answers 401 regardless of `exp`;
and the full characterization of acceptance shows this
`iat`-versus-`password_changed_at` comparison is the only revocation
check applied to access tokens. -/
theorem c5_iat_revocation (sigOk : Bool) (now : ℤ) (p : TokenPayload)
    (lookup : String → Option UserDoc) :
    (∀ uid user, sigOk = true → now ≤ p.exp → p.sub = some uid → uid ≠ "" →
        lookup uid = some user →
        tsFromValue user.password_changed_at ≤ p.iat.getD 0 →
        ("admin" ∈ effectiveRoles user ∨ "owner" ∈ effectiveRoles user) →
        require_admin (decode_access_token sigOk now p) lookup =
          Except.ok { user with hashed_password := none })
    ∧ (∀ uid user, p.sub = some uid → uid ≠ "" → lookup uid = some user →
        p.iat.getD 0 < tsFromValue user.password_changed_at →
        require_admin (decode_access_token sigOk now p) lookup = Except.error 401)
    ∧ (∀ u, require_admin (decode_access_token sigOk now p) lookup = Except.ok u ↔
        sigOk = true ∧ now ≤ p.exp ∧
          ∃ uid user, p.sub = some uid ∧ uid ≠ "" ∧ lookup uid = some user ∧
            tsFromValue user.password_changed_at ≤ p.iat.getD 0 ∧
            ("admin" ∈ effectiveRoles user ∨ "owner" ∈ effectiveRoles user) ∧
            u = { user with hashed_password := none }) := by
  refine ⟨?_, ?_, ?_⟩
  · intro uid user hsig hexp hsub hne hlook hiat hrole
    simp [decode_access_token, hsig, not_lt.mpr hexp, require_admin, hsub, hne, hlook,
      not_lt.mpr hiat, hrole]
  · intro uid user hsub hne hlook hiat
    cases sigOk with
    | false => simp [decode_access_token, require_admin]
    | true =>
      by_cases hexp : p.exp < now
      · simp [decode_access_token, hexp, require_admin]
      · simp [decode_access_token, hexp, require_admin, hsub, hne, hlook, hiat]
  · intro u
    cases sigOk with
    | false => simp [decode_access_token, require_admin]
    | true =>
      by_cases hexp : p.exp < now
      · simp [decode_access_token, hexp, require_admin, not_le.mpr hexp]
      · rcases hsub : p.sub with _ | uid
        · simp [decode_access_token, hexp, require_admin, hsub]
        · by_cases hne : uid = ""
          · simp [decode_access_token, hexp, require_admin, hsub, hne]
          · rcases hlook : lookup uid with _ | user
            · simp [decode_access_token, hexp, require_admin, hsub, hne, hlook]
            · by_cases hiat : p.iat.getD 0 < tsFromValue user.password_changed_at
              · simp [decode_access_token, hexp, require_admin, hsub, hne, hlook, hiat,
                  not_le.mpr hiat]
              · by_cases hrole :
                    ("admin" ∈ effectiveRoles user ∨ "owner" ∈ effectiveRoles user)
                · simp [decode_access_token, hexp, require_admin, hsub, hne, hlook, hiat,
                    not_lt.mp hexp, not_lt.mp hiat, hrole, eq_comm]
                · simp [decode_access_token, hexp, require_admin, hsub, hne, hlook, hiat,
                    hrole]

/-- C5 witness: the revocation claim at a concrete admin user whose
password changed at time 400 — a token issued at 500 (before its expiry
2000) is accepted, and a token issued at 100 is rejected with 401. -/
theorem c5_iat_revocation_witness :
    require_admin
        (decode_access_token true 1000 { sub := some "u1", iat := some 500, exp := 2000 })
        (fun s => if s = "u1"
          then some { email := "u1@example.com", hashed_password := none,
                      password_changed_at := some 400, roles := ["admin"], role := none }
          else none) =
      Except.ok { email := "u1@example.com", hashed_password := none,
                  password_changed_at := some 400, roles := ["admin"], role := none }
    ∧ require_admin
        (decode_access_token true 1000 { sub := some "u1", iat := some 100, exp := 2000 })
        (fun s => if s = "u1"
          then some { email := "u1@example.com", hashed_password := none,
                      password_changed_at := some 400, roles := ["admin"], role := none }
          else none) = Except.error 401 := by
  constructor
  · exact (c5_iat_revocation true 1000
      { sub := some "u1", iat := some 500, exp := 2000 } _).1 "u1"
      { email := "u1@example.com", hashed_password := none,
        password_changed_at := some 400, roles := ["admin"], role := none }
      rfl (by norm_num) rfl (by decide) (by simp)
      (by norm_num [tsFromValue]) (Or.inl (by simp [effectiveRoles]))
  · exact (c5_iat_revocation true 1000
      { sub := some "u1", iat := some 100, exp := 2000 } _).2.1 "u1"
      { email := "u1@example.com", hashed_password := none,
        password_changed_at := some 400, roles := ["admin"], role := none }
      rfl (by decide) (by simp) (by norm_num [tsFromValue])
